import Mathlib

/-
Verification of the DiscordPlay connections layer.

The development shallowly embeds the three core components of the
repository:

* the transaction registry (`src/Connections.cpp`,
  `Connections::QueueResourceRequest` and the completion/cancel
  delegates it installs),
* the WebSocket connection attempt (`src/ConnectWebSocket.cpp`,
  `ConnectWebSocketSynchronous`, `ConnectWebSocket`, and the shared
  abort/completed flag context), together with the blocking poll loop of
  `Connections::QueueWebSocketRequest`,
* the WebSocket message adapter (`src/WebSocket.cpp`).

Stateful C++ is modelled by explicit state passing: each C++ member
function becomes a Lean function from the old state to the new state,
and concurrent interleavings become lists of events folded over a step
function.  Promise resolutions and handler invocations, which in the
C++ are side effects, are recorded in ghost `resolved` / `delivered`
fields so that theorems can speak about them.
-/

namespace DiscordPlay

/-- Application-facing result of a resource request.  Field order
follows the `Discord::Connections::Response` aggregate as used by
`Connections.cpp` (`response.status`, `response.headers`,
`response.body`); the braced initializer `{499}` in the cancel
delegate therefore sets `status := 499` and leaves headers and body
empty. -/
structure Response where
  status : Nat
  headers : List (String × String)
  body : String
deriving DecidableEq, Repr

/-- Response structure of the transport client
(`Http::Client::Response` as read by the completion delegate:
`statusCode`, `reasonPhrase`, `headers.GetAll()`, `body`). -/
structure HttpResponse where
  statusCode : Nat
  reasonPhrase : String
  headers : List (String × String)
  body : String
deriving DecidableEq, Repr

/-- Translation of a transport response into the application-facing
result, from the body of the completion delegate in
`Connections::QueueResourceRequest` (Connections.cpp lines 143-152):
`response.status = statusCode`, `response.body = body`, and each
header `(name, value)` pushed in order. -/
def translateResponse (r : HttpResponse) : Response :=
  { status := r.statusCode, headers := r.headers, body := r.body }

/-- State of a `Connections::Impl` instance (Connections.cpp lines
25-40): the table of in-flight transactions keyed by id (we only need
the set of keys, kept as a list), the id counter
`nextHttpClientTransactionId` (initially 1), and a ghost list
`resolved` recording, in order, every promise resolution `(id, value)`
performed by either delegate. -/
structure RegistryState where
  httpClientTransactions : List Nat
  nextHttpClientTransactionId : Nat
  resolved : List (Nat × Response)
deriving DecidableEq, Repr

/-- Initial registry state: empty table, counter starts at 1
(Connections.cpp line 32), nothing resolved. -/
def regInit : RegistryState :=
  { httpClientTransactions := [], nextHttpClientTransactionId := 1, resolved := [] }

/-- The synchronous part of `Connections::QueueResourceRequest`
(Connections.cpp lines 64-91, 155, 175): under the table lock, take
the next id, post-increment the counter, insert the id into the table,
and return immediately with the new id; the promise is not resolved
here (the returned future is still pending). -/
def queueResourceRequest (s : RegistryState) : RegistryState × Nat :=
  let id := s.nextHttpClientTransactionId
  ({ httpClientTransactions := s.httpClientTransactions ++ [id],
     nextHttpClientTransactionId := id + 1,
     resolved := s.resolved }, id)

/-- The completion delegate installed by
`Connections::QueueResourceRequest` (Connections.cpp lines 93-154):
under the lock, look the id up in the table; if absent, return without
touching anything; if present, erase the entry, then (after unlocking)
translate the transport response and resolve the promise with it. -/
def completionDelegate (id : Nat) (r : HttpResponse) (s : RegistryState) : RegistryState :=
  if id ∈ s.httpClientTransactions then
    { s with
      httpClientTransactions := s.httpClientTransactions.erase id,
      resolved := s.resolved ++ [(id, translateResponse r)] }
  else s

/-- The cancel delegate `transaction.cancel` built by
`Connections::QueueResourceRequest` (Connections.cpp lines 156-174):
under the lock, look the id up; if absent, return without resolving;
if present, erase the entry, then (after unlocking) resolve the
promise with `{499}`, i.e. status 499, no headers, no body. -/
def cancelTransaction (id : Nat) (s : RegistryState) : RegistryState :=
  if id ∈ s.httpClientTransactions then
    { s with
      httpClientTransactions := s.httpClientTransactions.erase id,
      resolved := s.resolved ++ [(id, { status := 499, headers := [], body := "" })] }
  else s

/-- Events that can act on the registry state: queuing a new request,
the transport firing a completion delegate for some id, or some thread
invoking a cancel delegate for some id.  All three are serialized by
the single `impl_->mutex`, so an execution is a list of events. -/
inductive RegEvent
  | queue
  | complete (id : Nat) (r : HttpResponse)
  | cancel (id : Nat)
deriving DecidableEq, Repr

/-- One registry step. -/
def regStep (s : RegistryState) (e : RegEvent) : RegistryState :=
  match e with
  | RegEvent.queue => (queueResourceRequest s).1
  | RegEvent.complete id r => completionDelegate id r s
  | RegEvent.cancel id => cancelTransaction id s

/-- Run of a list of registry events. -/
def regRun (s : RegistryState) (es : List RegEvent) : RegistryState :=
  es.foldl regStep s

/-- Number of promise resolutions recorded for a given transaction id. -/
def resolutionCount (s : RegistryState) (id : Nat) : Nat :=
  (s.resolved.filter (fun p => p.1 = id)).length

/-- Registry invariant: table keys are distinct and below the counter,
resolved ids are below the counter, and for every id the number of
resolutions plus its pending table entry is at most one. -/
def RegInv (s : RegistryState) : Prop :=
  s.httpClientTransactions.Nodup
  ∧ (∀ id ∈ s.httpClientTransactions, id < s.nextHttpClientTransactionId)
  ∧ (∀ p ∈ s.resolved, p.1 < s.nextHttpClientTransactionId)
  ∧ (∀ id, resolutionCount s id + (if id ∈ s.httpClientTransactions then 1 else 0) ≤ 1)

/-- Concrete registry state used by witnesses: one pending transaction
with id 1, counter at 2, nothing resolved. -/
def regW : RegistryState :=
  { httpClientTransactions := [1], nextHttpClientTransactionId := 2, resolved := [] }

/-- Concrete transport response used by witnesses. -/
def respW : HttpResponse :=
  { statusCode := 200, reasonPhrase := "OK", headers := [("Content-Type", "text/plain")], body := "hi" }

/-- State of a `WebSocket::Impl` adapter instance (WebSocket.cpp lines
19-33).  Handlers are modelled by identifying numbers (`none` is the
C++ `nullptr` handler); `storedData` is the buffer of text payloads
received while no handler was registered; `delivered` is a ghost list
recording, in order, every handler invocation `(handler, payload)`. -/
structure AdapterState where
  onText : Option Nat
  storedData : List String
  delivered : List (Nat × String)
deriving DecidableEq, Repr

/-- Fresh adapter state, as after `WebSocket::Configure`: no handler,
empty buffer, nothing delivered. -/
def adapterInit : AdapterState :=
  { onText := none, storedData := [], delivered := [] }

namespace WS

/-- `WebSocket::Impl::OnText` (WebSocket.cpp lines 58-76): under the
lock, sample the current handler; if it is null, append the payload to
`storedData`; otherwise invoke the sampled handler with the payload
(after unlocking). -/
def OnText (data : String) (s : AdapterState) : AdapterState :=
  match s.onText with
  | none => { s with storedData := s.storedData ++ [data] }
  | some h => { s with delivered := s.delivered ++ [(h, data)] }

/-- `WebSocket::RegisterTextCallback` (WebSocket.cpp lines 164-179):
store the new handler; if the buffer is non-empty and the new handler
is non-null, swap the buffer out and deliver every buffered payload to
the handler in order, leaving the buffer empty. -/
def RegisterTextCallback (newOnText : Option Nat) (s : AdapterState) : AdapterState :=
  match newOnText with
  | none => { s with onText := none }
  | some h =>
    if s.storedData.isEmpty then { s with onText := some h }
    else
      { s with
        onText := some h,
        storedData := [],
        delivered := s.delivered ++ s.storedData.map (fun m => (h, m)) }

/-- `WebSocket::Impl::OnBinary` (WebSocket.cpp lines 35-39): the body
is empty, so the notification is discarded and the state is unchanged. -/
def OnBinary (_ : String) (s : AdapterState) : AdapterState := s

/-- `WebSocket::Impl::OnClose` (WebSocket.cpp lines 41-44): the body
is empty, so the notification is discarded and the state is unchanged. -/
def OnClose (s : AdapterState) : AdapterState := s

/-- `WebSocket::Impl::OnPing` (WebSocket.cpp lines 46-50): the body is
empty, so the notification is discarded and the state is unchanged. -/
def OnPing (_ : String) (s : AdapterState) : AdapterState := s

/-- `WebSocket::Impl::OnPong` (WebSocket.cpp lines 52-56): the body is
empty, so the notification is discarded and the state is unchanged. -/
def OnPong (_ : String) (s : AdapterState) : AdapterState := s

/-- `WebSocket::Binary` (WebSocket.cpp lines 149-150): the body is
empty — the outbound send is a no-op that never touches the adaptee. -/
def Binary (_ : String) (s : AdapterState) : AdapterState := s

/-- `WebSocket::Close` (WebSocket.cpp lines 152-153): the body is
empty — the outbound close is a no-op that never touches the adaptee. -/
def Close (s : AdapterState) : AdapterState := s

/-- `WebSocket::Text` (WebSocket.cpp lines 155-156): the body is
empty — the outbound send is a no-op that never touches the adaptee. -/
def Text (_ : String) (s : AdapterState) : AdapterState := s

/-- `WebSocket::RegisterBinaryCallback` (WebSocket.cpp lines 158-159):
the body is empty — no binary handler is ever stored. -/
def RegisterBinaryCallback (_ : Option Nat) (s : AdapterState) : AdapterState := s

/-- `WebSocket::RegisterCloseCallback` (WebSocket.cpp lines 161-162):
the body is empty — no close handler is ever stored. -/
def RegisterCloseCallback (_ : Option Nat) (s : AdapterState) : AdapterState := s

end WS

/-- Inbound adapter events: a text payload arriving from the wrapped
connection (serialized per connection) or a consumer registering a
text handler. -/
inductive AdapterEvent
  | text (data : String)
  | register (h : Option Nat)
deriving DecidableEq, Repr

/-- One adapter step. -/
def adapterStep (s : AdapterState) (e : AdapterEvent) : AdapterState :=
  match e with
  | AdapterEvent.text data => WS.OnText data s
  | AdapterEvent.register h => WS.RegisterTextCallback h s

/-- Run of a list of adapter events. -/
def adapterRun (s : AdapterState) (es : List AdapterEvent) : AdapterState :=
  es.foldl adapterStep s

/-- Outbound operations of the adapter surface (`WebSocket::Text`,
`WebSocket::Binary`, `WebSocket::Close`). -/
inductive OutboundOp
  | text (m : String)
  | binary (m : String)
  | close
deriving DecidableEq, Repr

/-- One outbound step. -/
def outboundStep (s : AdapterState) (op : OutboundOp) : AdapterState :=
  match op with
  | OutboundOp.text m => WS.Text m s
  | OutboundOp.binary m => WS.Binary m s
  | OutboundOp.close => WS.Close s

/-- Modelled from the spec: the spec's MessageAdapter state for the
non-text channels, which the source does not implement (the
corresponding C++ bodies are empty).  Per spec section 4.3 the adapter
holds binary and close handlers, forwards binary/ping/pong/close
notifications without buffering, and a close notification moves the
adapter into a terminal `closed` state. -/
structure SpecAdapterState where
  onBinary : Option Nat
  closed : Bool
  delivered : List (Nat × String)
deriving DecidableEq, Repr

/-- Modelled from the spec: initial spec-adapter state. -/
def specAdapterInit : SpecAdapterState :=
  { onBinary := none, closed := false, delivered := [] }

/-- Modelled from the spec: `registerBinaryHandler` stores the binary
handler (spec section 6, WebSocket object surface). -/
def specRegisterBinaryCallback (h : Option Nat) (s : SpecAdapterState) : SpecAdapterState :=
  { s with onBinary := h }

/-- Modelled from the spec: a binary notification is forwarded to the
registered handler synchronously, without buffering (spec sections 2
and 4.3). -/
def specOnBinary (data : String) (s : SpecAdapterState) : SpecAdapterState :=
  match s.onBinary with
  | none => s
  | some h => { s with delivered := s.delivered ++ [(h, data)] }

/-- Modelled from the spec: a close notification transitions the
adapter to a terminal state (spec section 4.3). -/
def specOnClose (s : SpecAdapterState) : SpecAdapterState :=
  { s with closed := true }

/-- URI as used by the two port-defaulting sites (`Uri::Uri` surface:
`GetScheme`, `HasPort`, `SetPort`). -/
structure Uri where
  scheme : String
  host : String
  port : Option Nat
deriving DecidableEq, Repr

/-- `Uri::GetScheme`. -/
def Uri.GetScheme (u : Uri) : String := u.scheme

/-- `Uri::HasPort`. -/
def Uri.HasPort (u : Uri) : Bool := u.port.isSome

/-- `Uri::SetPort`. -/
def Uri.SetPort (u : Uri) (p : Nat) : Uri := { u with port := some p }

/-- Port handling in `ConnectWebSocketSynchronous`
(ConnectWebSocket.cpp lines 124-131): only when the URI has no port
and the scheme is exactly "wss" is the port set to 443. -/
def connectDefaultPort (u : Uri) : Uri :=
  if !u.HasPort && (u.GetScheme == "wss") then u.SetPort 443 else u

/-- Port handling in `Connections::QueueResourceRequest`
(Connections.cpp lines 80-85): whenever the scheme is "https" or
"wss", the port is set to 443, with no check whether the URI already
has an explicit port. -/
def resourceRequestSetPort (u : Uri) : Uri :=
  if u.GetScheme == "https" || u.GetScheme == "wss" then u.SetPort 443 else u

/-- The shared abort/completed flag pair of one connection attempt
(`MakeConnectionSharedContext`, ConnectWebSocket.cpp lines 30-74).
Both flags start false. -/
structure MakeConnectionSharedContext where
  abortAttempt : Bool
  transactionCompleted : Bool
deriving DecidableEq, Repr

/-- The `abortConnection` closure handed out by `ConnectWebSocket`
(ConnectWebSocket.cpp lines 254-258): under the lock, set
`abortAttempt` and notify the condition variable.  It only ever sets
the flag, never clears either one. -/
def setAbortAttempt (s : MakeConnectionSharedContext) : MakeConnectionSharedContext :=
  { s with abortAttempt := true }

/-- The completion delegate installed on the transport transaction
(ConnectWebSocket.cpp lines 164-170): under the lock, set
`transactionCompleted` and notify.  It only ever sets the flag, never
clears either one. -/
def setTransactionCompleted (s : MakeConnectionSharedContext) : MakeConnectionSharedContext :=
  { s with transactionCompleted := true }

/-- The wake-up condition of `MakeConnectionSharedContext::Wait`
(ConnectWebSocket.cpp lines 66-71): the wait returns once
`abortAttempt || transactionCompleted` holds. -/
def waitCondition (s : MakeConnectionSharedContext) : Bool :=
  s.abortAttempt || s.transactionCompleted

/-- The value returned by `MakeConnectionSharedContext::Wait`
(ConnectWebSocket.cpp line 72): `!abortAttempt`, so an abort overrides
a concurrently set completed flag. -/
def waitReturn (s : MakeConnectionSharedContext) : Bool :=
  !s.abortAttempt

/-- Events acting on the shared flag context. -/
inductive FlagEvent
  | abort
  | complete
deriving DecidableEq, Repr

/-- One flag step. -/
def flagStep (s : MakeConnectionSharedContext) (e : FlagEvent) : MakeConnectionSharedContext :=
  match e with
  | FlagEvent.abort => setAbortAttempt s
  | FlagEvent.complete => setTransactionCompleted s

/-- Run of a list of flag events. -/
def flagRun (s : MakeConnectionSharedContext) (es : List FlagEvent) : MakeConnectionSharedContext :=
  es.foldl flagStep s

/-- Terminal states of an `Http::IClient::Transaction` as distinguished
by the switch in `ConnectWebSocketSynchronous` (ConnectWebSocket.cpp
lines 178-230); `Other` stands for any state value not in the known
enumeration, handled by the `default` branch. -/
inductive TransactionState
  | Completed
  | UnableToConnect
  | Broken
  | Timeout
  | Other (raw : Int)
deriving DecidableEq, Repr

/-- Severity of a diagnostic message (`SystemAbstractions`
`DiagnosticsSender::Levels::WARNING` / `ERROR`, and plain numeric
levels). -/
inductive DiagLevel
  | info (level : Nat)
  | warning
  | error
deriving DecidableEq, Repr

/-- One diagnostic message. -/
structure Diag where
  level : DiagLevel
  message : String
deriving DecidableEq, Repr

/-- Inputs that the environment supplies to one run of
`ConnectWebSocketSynchronous`: the result of `uri.ParseFromString`
(`none` = parse failure), the shared flag context observed when
`Wait` returns, the transaction's terminal state, the response status
code and reason phrase, and whether `FinishOpenAsClient` returned true
in the upgrade callback (`wsEngaged`). -/
structure ConnectInputs where
  parsedUri : Option Uri
  contextAtWake : MakeConnectionSharedContext
  state : TransactionState
  statusCode : Nat
  reasonPhrase : String
  wsEngaged : Bool
deriving DecidableEq, Repr

/-- `ConnectWebSocketSynchronous` (ConnectWebSocket.cpp lines
108-232).  Returns the WebSocket (represented by the target URI it was
opened against; `none` = the C++ `nullptr`) and the diagnostics
emitted.  Faithful control flow: parse failure returns null; the
wss-only default-port rule is applied; if `Wait` returned false the
attempt returns null regardless of the transport outcome; otherwise
the switch on the terminal state only logs, and the returned value is
`wsEngaged ? ws : nullptr` (line 231), driven by `wsEngaged` alone. -/
def connectWebSocketSynchronous (i : ConnectInputs) : Option Uri × List Diag :=
  match i.parsedUri with
  | none => (none, [{ level := DiagLevel.error, message := "WebSocket URI is invalid" }])
  | some uri0 =>
    let uri := connectDefaultPort uri0
    let pre : List Diag := [{ level := DiagLevel.info 2, message := "Connecting..." }]
    if waitReturn i.contextAtWake = false then
      (none, pre ++ [{ level := DiagLevel.warning, message := "connection aborted" }])
    else
      let stateDiag : List Diag :=
        match i.state with
        | TransactionState.Completed =>
          if i.wsEngaged then
            [{ level := DiagLevel.info 2, message := "Connection established." }]
          else if i.statusCode == 101 then
            [{ level := DiagLevel.warning,
               message := "Connection upgraded, but failed to engage WebSocket" }]
          else
            [{ level := DiagLevel.warning,
               message := "Got back response: " ++ toString i.statusCode
                 ++ " " ++ i.reasonPhrase }]
        | TransactionState.UnableToConnect =>
          [{ level := DiagLevel.warning, message := "unable to connect" }]
        | TransactionState.Broken =>
          [{ level := DiagLevel.warning, message := "connection broken by server" }]
        | TransactionState.Timeout =>
          [{ level := DiagLevel.warning, message := "timeout waiting for response" }]
        | TransactionState.Other _ =>
          [{ level := DiagLevel.error, message := "Unknown transaction state" }]
      ((if i.wsEngaged then some uri else none), pre ++ stateDiag)

/-- The poll loop of `Connections::QueueWebSocketRequest`
(Connections.cpp lines 222-230), run on the calling thread: while the
cancel flag is unset and `wait_for(100ms)` on the connection future
times out, loop.  The second argument is the number of 100 ms periods
after which the connection future becomes ready; the result is the
number of full 100 ms timeout waits the calling thread performs before
the loop exits. -/
def pollLoopTimeoutWaits (cancelWebSocketConnection : Bool) : Nat → Nat
  | 0 => 0
  | k + 1 =>
    if cancelWebSocketConnection then 0
    else pollLoopTimeoutWaits cancelWebSocketConnection k + 1

/-- `Connections::QueueWebSocketRequest` (Connections.cpp lines
178-259) after the poll loop exits: if the cancel flag is set, the
promise is resolved with null; otherwise it is resolved with the
(wrapped) outcome of the connection attempt.  The first component is
the state of the future inside the returned transaction: `some v`
means it is already resolved with `v` when the call returns — by
construction it is never pending.  The second component is the number
of blocking 100 ms waits the calling thread performed inside the call. -/
def QueueWebSocketRequest (cancelFlag : Bool) (readyAfter : Nat) (outcome : Option Uri) :
    Option (Option Uri) × Nat :=
  (some (if cancelFlag then none else outcome),
   pollLoopTimeoutWaits cancelFlag readyAfter)

/-- Concrete URI with an explicit non-default port, used as a
counterexample input. -/
def uriExplicitPort : Uri := { scheme := "https", host := "example.test", port := some 8443 }

/-- Concrete https URI with no port, used as a counterexample input. -/
def uriHttpsNoPort : Uri := { scheme := "https", host := "example.test", port := none }

/-- Concrete wss URI with no port, used as a witness input. -/
def uriWssNoPort : Uri := { scheme := "wss", host := "example.test", port := none }

/-- Concrete connect inputs for the C3 witness: both flags set when the
wait returns, a completed transaction with status 101 and an engaged
upgrade — yet the attempt must return null because of the abort. -/
def connectAbortedInput : ConnectInputs :=
  { parsedUri := some uriWssNoPort,
    contextAtWake := { abortAttempt := true, transactionCompleted := true },
    state := TransactionState.Completed,
    statusCode := 101,
    reasonPhrase := "Switching Protocols",
    wsEngaged := true }

/-- Concrete connect inputs for the C6 witness: no abort, completed
transaction, engaged upgrade. -/
def connectEngagedInput : ConnectInputs :=
  { parsedUri := some uriWssNoPort,
    contextAtWake := { abortAttempt := false, transactionCompleted := true },
    state := TransactionState.Completed,
    statusCode := 101,
    reasonPhrase := "Switching Protocols",
    wsEngaged := true }

end DiscordPlay

namespace DiscordPlay

lemma resolutionCount_append (s : RegistryState) (l : List (Nat × Response)) (id : Nat) :
    (RegistryState.mk s.httpClientTransactions s.nextHttpClientTransactionId (s.resolved ++ l)
      |> fun t => resolutionCount t id)
    = resolutionCount s id + (l.filter (fun p => p.1 = id)).length := by
  simp [resolutionCount, List.filter_append]

lemma regInv_init : RegInv regInit := by
  refine ⟨by simp [regInit], by simp [regInit], by simp [regInit], ?_⟩
  intro id
  simp [regInit, resolutionCount]

lemma regInv_queue (s : RegistryState) (h : RegInv s) : RegInv (queueResourceRequest s).1 := by
  obtain ⟨hnd, htb, hrb, hcnt⟩ := h
  refine ⟨?_, ?_, ?_, ?_⟩
  · simp only [queueResourceRequest, List.nodup_append]
    refine ⟨hnd, by simp, ?_⟩
    intro a ha
    simp only [List.mem_singleton]
    intro hEq
    exact absurd (htb a ha) (by simp [hEq])
  · intro id hid
    simp only [queueResourceRequest, List.mem_append, List.mem_singleton] at hid
    rcases hid with hid | hid
    · exact Nat.lt_succ_of_lt (htb id hid)
    · simp [queueResourceRequest, hid]
  · intro p hp
    exact Nat.lt_succ_of_lt (hrb p hp)
  · intro id
    have hc : resolutionCount (queueResourceRequest s).1 id = resolutionCount s id := by
      simp [queueResourceRequest, resolutionCount]
    rw [hc]
    by_cases hmem : id ∈ s.httpClientTransactions
    · have : id ∈ (queueResourceRequest s).1.httpClientTransactions := by
        simp [queueResourceRequest, hmem]
      simpa [this, hmem] using hcnt id
    · by_cases hnew : id = s.nextHttpClientTransactionId
      · have hc0 : resolutionCount s id = 0 := by
          simp only [resolutionCount, List.length_eq_zero, List.filter_eq_nil_iff]
          intro p hp
          have := hrb p hp
          simp only [decide_eq_true_eq]
          intro hEq
          rw [hEq] at this
          omega
        simp only [hc0, Nat.zero_add]
        split <;> simp
      · have : id ∉ (queueResourceRequest s).1.httpClientTransactions := by
          simp [queueResourceRequest, hmem, hnew]
        simpa [this, hmem] using hcnt id

lemma regInv_remove_resolve (s : RegistryState) (id : Nat) (resp : Response)
    (h : RegInv s) (hMem : id ∈ s.httpClientTransactions) :
    RegInv { s with
      httpClientTransactions := s.httpClientTransactions.erase id,
      resolved := s.resolved ++ [(id, resp)] } := by
  obtain ⟨hnd, htb, hrb, hcnt⟩ := h
  refine ⟨hnd.erase id, ?_, ?_, ?_⟩
  · intro j hj
    exact htb j ((s.httpClientTransactions.erase_sublist id).subset hj)
  · intro p hp
    simp only [List.mem_append, List.mem_singleton] at hp
    rcases hp with hp | hp
    · exact hrb p hp
    · rw [hp]
      exact htb id hMem
  · intro j
    have hsplit : resolutionCount
        { s with
          httpClientTransactions := s.httpClientTransactions.erase id,
          resolved := s.resolved ++ [(id, resp)] } j
        = resolutionCount s j + (if j = id then 1 else 0) := by
      simp only [resolutionCount, List.filter_append, List.length_append]
      congr 1
      by_cases hji : j = id <;> simp [hji, eq_comm]
    rw [hsplit]
    by_cases hji : j = id
    · have h0 : resolutionCount s id = 0 := by
        have := hcnt id
        simpa [hMem] using this
      have hni : id ∉ s.httpClientTransactions.erase id := by
        simp [hnd.mem_erase_iff]
      simp [hji, h0, hni]
    · have hmm : j ∈ s.httpClientTransactions.erase id ↔ j ∈ s.httpClientTransactions := by
        rw [hnd.mem_erase_iff]
        simp [hji]
      have := hcnt j
      by_cases hj : j ∈ s.httpClientTransactions
      · simpa [hji, hmm, hj] using this
      · simpa [hji, hmm, hj] using this

lemma regInv_complete (s : RegistryState) (id : Nat) (r : HttpResponse)
    (h : RegInv s) : RegInv (completionDelegate id r s) := by
  unfold completionDelegate
  by_cases hMem : id ∈ s.httpClientTransactions
  · simpa [hMem] using regInv_remove_resolve s id (translateResponse r) h hMem
  · simpa [hMem] using h

lemma regInv_cancel (s : RegistryState) (id : Nat)
    (h : RegInv s) : RegInv (cancelTransaction id s) := by
  unfold cancelTransaction
  by_cases hMem : id ∈ s.httpClientTransactions
  · simpa [hMem] using
      regInv_remove_resolve s id { status := 499, headers := [], body := "" } h hMem
  · simpa [hMem] using h

lemma regInv_step (s : RegistryState) (e : RegEvent) (h : RegInv s) : RegInv (regStep s e) := by
  cases e with
  | queue => exact regInv_queue s h
  | complete id r => exact regInv_complete s id r h
  | cancel id => exact regInv_cancel s id h

lemma regInv_run (s : RegistryState) (es : List RegEvent) (h : RegInv s) :
    RegInv (regRun s es) := by
  induction es generalizing s with
  | nil => simpa [regRun] using h
  | cons e es ih =>
    have : regRun s (e :: es) = regRun (regStep s e) es := by
      simp [regRun]
    rw [this]
    exact ih (regStep s e) (regInv_step s e h)

lemma regWInv : RegInv regW := by
  refine ⟨by decide, by decide, by simp [regW], ?_⟩
  intro id
  have h0 : resolutionCount regW id = 0 := by
    simp [regW, resolutionCount]
  rw [h0]
  split <;> simp

/-- C1.  For every trace of registry events, each transaction's promise
is resolved at most once; the completion path and the cancel path each
return without resolving anything when the id is absent from the
table, and whichever path finds the id present removes it from the
table (so the other path will find it absent) and performs exactly one
resolution for it. -/
theorem registry_at_most_once_resolution :
    (∀ es id, resolutionCount (regRun regInit es) id ≤ 1)
    ∧ (∀ id r s, id ∉ s.httpClientTransactions → completionDelegate id r s = s)
    ∧ (∀ id s, id ∉ s.httpClientTransactions → cancelTransaction id s = s)
    ∧ (∀ id r s, RegInv s → id ∈ s.httpClientTransactions →
        id ∉ (completionDelegate id r s).httpClientTransactions
        ∧ resolutionCount (completionDelegate id r s) id = resolutionCount s id + 1
        ∧ resolutionCount (completionDelegate id r s) id = 1)
    ∧ (∀ id s, RegInv s → id ∈ s.httpClientTransactions →
        id ∉ (cancelTransaction id s).httpClientTransactions
        ∧ resolutionCount (cancelTransaction id s) id = resolutionCount s id + 1
        ∧ resolutionCount (cancelTransaction id s) id = 1) := by
  refine ⟨?_, ?_, ?_, ?_, ?_⟩
  · intro es id
    have hInv := regInv_run regInit es regInv_init
    have := hInv.2.2.2 id
    omega
  · intro id r s hAbs
    simp [completionDelegate, hAbs]
  · intro id s hAbs
    simp [cancelTransaction, hAbs]
  · intro id r s hInv hMem
    obtain ⟨hnd, _, _, hcnt⟩ := hInv
    have h0 : resolutionCount s id = 0 := by
      have := hcnt id
      simpa [hMem] using this
    have hcount : resolutionCount (completionDelegate id r s) id = resolutionCount s id + 1 := by
      simp [completionDelegate, hMem, resolutionCount, List.filter_append]
    refine ⟨?_, hcount, by rw [hcount, h0]⟩
    simp [completionDelegate, hMem, hnd.mem_erase_iff]
  · intro id s hInv hMem
    obtain ⟨hnd, _, _, hcnt⟩ := hInv
    have h0 : resolutionCount s id = 0 := by
      have := hcnt id
      simpa [hMem] using this
    have hcount : resolutionCount (cancelTransaction id s) id = resolutionCount s id + 1 := by
      simp [cancelTransaction, hMem, resolutionCount, List.filter_append]
    refine ⟨?_, hcount, by rw [hcount, h0]⟩
    simp [cancelTransaction, hMem, hnd.mem_erase_iff]

/-- Witness for C1: a concrete trace queues a transaction, cancels it,
then its completion delegate fires; id 1 is resolved at most once, and
on the concrete one-entry table the cancel path removes the entry and
resolves exactly once. -/
theorem registry_at_most_once_resolution_witness :
    resolutionCount (regRun regInit [RegEvent.queue, RegEvent.cancel 1, RegEvent.complete 1 respW]) 1 ≤ 1
    ∧ (1 ∉ (cancelTransaction 1 regW).httpClientTransactions
       ∧ resolutionCount (cancelTransaction 1 regW) 1 = resolutionCount regW 1 + 1
       ∧ resolutionCount (cancelTransaction 1 regW) 1 = 1) :=
  ⟨registry_at_most_once_resolution.1 [RegEvent.queue, RegEvent.cancel 1, RegEvent.complete 1 respW] 1,
   registry_at_most_once_resolution.2.2.2.2 1 regW regWInv (by decide)⟩

/-- C4.  Cancelling while the id is still in the table removes it and
resolves the promise with exactly status 499, no headers and no body;
cancelling when the id is absent is a no-op (the delegate is total, so
it never throws), a second cancel after a first one is a no-op, and a
cancel after the completion delegate already fired is a no-op. -/
theorem cancel_resolves_499_and_is_idempotent :
    (∀ id s, s.httpClientTransactions.Nodup → id ∈ s.httpClientTransactions →
        (cancelTransaction id s).resolved
          = s.resolved ++ [(id, { status := 499, headers := [], body := "" })]
        ∧ id ∉ (cancelTransaction id s).httpClientTransactions)
    ∧ (∀ id s, id ∉ s.httpClientTransactions → cancelTransaction id s = s)
    ∧ (∀ id s, s.httpClientTransactions.Nodup →
        cancelTransaction id (cancelTransaction id s) = cancelTransaction id s)
    ∧ (∀ id r s, s.httpClientTransactions.Nodup →
        cancelTransaction id (completionDelegate id r s) = completionDelegate id r s) := by
  refine ⟨?_, ?_, ?_, ?_⟩
  · intro id s hnd hMem
    constructor
    · simp [cancelTransaction, hMem]
    · simp [cancelTransaction, hMem, hnd.mem_erase_iff]
  · intro id s hAbs
    simp [cancelTransaction, hAbs]
  · intro id s hnd
    by_cases hMem : id ∈ s.httpClientTransactions
    · have hgone : id ∉ s.httpClientTransactions.erase id := by
        simp [hnd.mem_erase_iff]
      simp [cancelTransaction, hMem, hgone]
    · simp [cancelTransaction, hMem]
  · intro id r s hnd
    by_cases hMem : id ∈ s.httpClientTransactions
    · have hgone : id ∉ s.httpClientTransactions.erase id := by
        simp [hnd.mem_erase_iff]
      simp [cancelTransaction, completionDelegate, hMem, hgone]
    · have hsame : completionDelegate id r s = s := by
        simp [completionDelegate, hMem]
      rw [hsame]
      simp [cancelTransaction, hMem]

/-- Witness for C4: on the concrete one-entry table, cancelling id 1
appends the 499 resolution and removes the entry, and a double cancel
equals a single cancel. -/
theorem cancel_resolves_499_and_is_idempotent_witness :
    ((cancelTransaction 1 regW).resolved
        = regW.resolved ++ [(1, { status := 499, headers := [], body := "" })]
      ∧ 1 ∉ (cancelTransaction 1 regW).httpClientTransactions)
    ∧ cancelTransaction 1 (cancelTransaction 1 regW) = cancelTransaction 1 regW :=
  ⟨cancel_resolves_499_and_is_idempotent.1 1 regW (by decide) (by decide),
   cancel_resolves_499_and_is_idempotent.2.2.1 1 regW (by decide)⟩

lemma adapterRun_text_none (xs : List String) (s : AdapterState) (h : s.onText = none) :
    adapterRun s (xs.map AdapterEvent.text) = { s with storedData := s.storedData ++ xs } := by
  induction xs generalizing s with
  | nil => simp [adapterRun]
  | cons x xs ih =>
    have hstep : adapterStep s (AdapterEvent.text x)
        = { s with storedData := s.storedData ++ [x] } := by
      simp [adapterStep, WS.OnText, h]
    have hrun : adapterRun s ((x :: xs).map AdapterEvent.text)
        = adapterRun (adapterStep s (AdapterEvent.text x)) (xs.map AdapterEvent.text) := by
      simp [adapterRun]
    rw [hrun, hstep, ih { s with storedData := s.storedData ++ [x] } h]
    simp

lemma adapterRun_text_some (ys : List String) (s : AdapterState) (h : Nat)
    (hs : s.onText = some h) :
    adapterRun s (ys.map AdapterEvent.text)
      = { s with delivered := s.delivered ++ ys.map (fun m => (h, m)) } := by
  induction ys generalizing s with
  | nil => simp [adapterRun]
  | cons y ys ih =>
    have hstep : adapterStep s (AdapterEvent.text y)
        = { s with delivered := s.delivered ++ [(h, y)] } := by
      simp [adapterStep, WS.OnText, hs]
    have hrun : adapterRun s ((y :: ys).map AdapterEvent.text)
        = adapterRun (adapterStep s (AdapterEvent.text y)) (ys.map AdapterEvent.text) := by
      simp [adapterRun]
    rw [hrun, hstep, ih { s with delivered := s.delivered ++ [(h, y)] } hs]
    simp

lemma registerTextCallback_flush (h : Nat) (xs : List String) :
    WS.RegisterTextCallback (some h)
        { onText := none, storedData := xs, delivered := [] }
      = { onText := some h, storedData := [], delivered := xs.map (fun m => (h, m)) } := by
  cases xs <;> simp [WS.RegisterTextCallback]

/-- C2.  For every N text arrivals before the handler is registered
and M after, the handler observes all N+M payloads exactly once and in
arrival order, the buffer is empty afterwards, and a payload is
buffered (rather than delivered) exactly when the sampled handler is
null at its arrival. -/
theorem adapter_delivers_all_messages_in_order :
    (∀ (xs ys : List String) (h : Nat),
        (adapterRun adapterInit
            (xs.map AdapterEvent.text
              ++ AdapterEvent.register (some h) :: ys.map AdapterEvent.text)).delivered
          = (xs ++ ys).map (fun m => (h, m))
        ∧ (adapterRun adapterInit
            (xs.map AdapterEvent.text
              ++ AdapterEvent.register (some h) :: ys.map AdapterEvent.text)).storedData = [])
    ∧ (∀ (s : AdapterState) (m : String),
        ((WS.OnText m s).storedData = s.storedData ++ [m]
          ∧ (WS.OnText m s).delivered = s.delivered) ↔ s.onText = none) := by
  constructor
  · intro xs ys h
    have hsplit : adapterRun adapterInit
        (xs.map AdapterEvent.text
          ++ AdapterEvent.register (some h) :: ys.map AdapterEvent.text)
        = adapterRun
            (adapterStep (adapterRun adapterInit (xs.map AdapterEvent.text))
              (AdapterEvent.register (some h)))
            (ys.map AdapterEvent.text) := by
      simp [adapterRun, List.foldl_append]
    have h1 : adapterRun adapterInit (xs.map AdapterEvent.text)
        = { onText := none, storedData := xs, delivered := [] } := by
      have := adapterRun_text_none xs adapterInit rfl
      simpa [adapterInit] using this
    have h2 : adapterStep (adapterRun adapterInit (xs.map AdapterEvent.text))
          (AdapterEvent.register (some h))
        = { onText := some h, storedData := [], delivered := xs.map (fun m => (h, m)) } := by
      rw [h1]
      simpa [adapterStep] using registerTextCallback_flush h xs
    rw [hsplit, h2, adapterRun_text_some ys _ h rfl]
    simp
  · intro s m
    constructor
    · intro hL
      cases hs : s.onText with
      | none => rfl
      | some h =>
        exfalso
        have := hL.1
        simp [WS.OnText, hs] at this
    · intro hN
      simp [WS.OnText, hN]

/-- C8 counterexample.  The source does not forward binary or close
notifications at all: `RegisterBinaryCallback` stores nothing,
`OnBinary` delivers nothing, and `OnClose` causes no state transition,
whereas the spec-modelled adapter forwards the binary payload to the
registered handler and moves to a terminal closed state. -/
theorem notifications_not_forwarded_counterexample :
    WS.RegisterBinaryCallback (some 7) adapterInit = adapterInit
    ∧ (WS.OnBinary "p" adapterInit).delivered = []
    ∧ WS.OnClose adapterInit = adapterInit
    ∧ (specOnBinary "p" (specRegisterBinaryCallback (some 7) specAdapterInit)).delivered
        = [(7, "p")]
    ∧ (specOnClose specAdapterInit).closed = true
    ∧ specAdapterInit.closed = false := by
  refine ⟨rfl, rfl, rfl, ?_, rfl, rfl⟩
  simp [specOnBinary, specRegisterBinaryCallback, specAdapterInit]

/-- C8 as amended.  Binary, ping, pong and close notifications are
discarded without buffering and without forwarding (the binary/close
handler registrations are themselves no-ops, so no such handler can
exist); a close notification causes no state transition, and send
operations are accepted as no-ops at all times, before or after a
close notification. -/
theorem notifications_discarded_and_sends_noop :
    ∀ (s : AdapterState) (d : String) (h : Option Nat),
      WS.OnBinary d s = s ∧ WS.OnPing d s = s ∧ WS.OnPong d s = s
      ∧ WS.OnClose s = s
      ∧ WS.Binary d s = s ∧ WS.Close s = s ∧ WS.Text d s = s
      ∧ WS.RegisterBinaryCallback h s = s ∧ WS.RegisterCloseCallback h s = s
      ∧ WS.Binary d (WS.OnClose s) = WS.OnClose s := by
  intro s d h
  exact ⟨rfl, rfl, rfl, rfl, rfl, rfl, rfl, rfl, rfl, rfl⟩

/-- C9.  The outbound operations `Text`, `Binary` and `Close` are
no-ops: each leaves the adapter state (handler, buffer, delivery
record) unchanged, and so does any sequence of them, so nothing sent
through the adapter ever reaches the wrapped connection. -/
theorem outbound_operations_are_noops :
    (∀ (s : AdapterState) (m : String),
        WS.Text m s = s ∧ WS.Binary m s = s ∧ WS.Close s = s)
    ∧ (∀ (s : AdapterState) (ops : List OutboundOp), List.foldl outboundStep s ops = s) := by
  constructor
  · intro s m
    exact ⟨rfl, rfl, rfl⟩
  · intro s ops
    induction ops generalizing s with
    | nil => rfl
    | cons op ops ih =>
      have hop : outboundStep s op = s := by cases op <;> rfl
      simp [hop, ih]

/-- C10.  Registering a null text handler stores null and delivers
nothing; a text payload arriving afterwards is buffered again; and the
buffered-message flush changes the delivery record only when the newly
registered handler is non-null and the buffer is non-empty. -/
theorem register_null_handler_buffers_again :
    ∀ (s : AdapterState) (m : String) (h : Option Nat),
      WS.RegisterTextCallback none s = { s with onText := none }
      ∧ (WS.OnText m (WS.RegisterTextCallback none s)).storedData = s.storedData ++ [m]
      ∧ (WS.OnText m (WS.RegisterTextCallback none s)).delivered = s.delivered
      ∧ ((WS.RegisterTextCallback h s).delivered = s.delivered
          ↔ (h = none ∨ s.storedData = [])) := by
  intro s m h
  refine ⟨rfl, by simp [WS.RegisterTextCallback, WS.OnText], by simp [WS.RegisterTextCallback, WS.OnText], ?_⟩
  cases h with
  | none => simp [WS.RegisterTextCallback]
  | some hh =>
    by_cases hE : s.storedData.isEmpty
    · have : s.storedData = [] := by simpa [List.isEmpty_iff] using hE
      simp [WS.RegisterTextCallback, hE, this]
    · have hne : s.storedData ≠ [] := by simpa [List.isEmpty_iff] using hE
      simp [WS.RegisterTextCallback, hE, hne]

lemma flagStep_mono (s : MakeConnectionSharedContext) (e : FlagEvent) :
    (s.abortAttempt = true → (flagStep s e).abortAttempt = true)
    ∧ (s.transactionCompleted = true → (flagStep s e).transactionCompleted = true) := by
  cases e <;> simp [flagStep, setAbortAttempt, setTransactionCompleted]

lemma flagRun_mono (s : MakeConnectionSharedContext) (es : List FlagEvent) :
    (s.abortAttempt = true → (flagRun s es).abortAttempt = true)
    ∧ (s.transactionCompleted = true → (flagRun s es).transactionCompleted = true) := by
  induction es generalizing s with
  | nil => simp [flagRun]
  | cons e es ih =>
    have hrun : flagRun s (e :: es) = flagRun (flagStep s e) es := by
      simp [flagRun]
    rw [hrun]
    constructor
    · intro h
      exact (ih (flagStep s e)).1 ((flagStep_mono s e).1 h)
    · intro h
      exact (ih (flagStep s e)).2 ((flagStep_mono s e).2 h)

/-- C3.  If the abort flag is set at the moment the waiting thread
wakes up, the wait condition holds (the wait wakes on the disjunction
of the two flags), `Wait` returns false, and the attempt returns null
— even when the completed flag is also set; moreover no sequence of
flag events ever clears either flag once it is set. -/
theorem abort_overrides_completion (i : ConnectInputs)
    (hA : i.contextAtWake.abortAttempt = true) :
    waitCondition i.contextAtWake = true
    ∧ waitReturn i.contextAtWake = false
    ∧ (connectWebSocketSynchronous i).1 = none
    ∧ (∀ (s : MakeConnectionSharedContext) (es : List FlagEvent),
        (s.abortAttempt = true → (flagRun s es).abortAttempt = true)
        ∧ (s.transactionCompleted = true → (flagRun s es).transactionCompleted = true)) := by
  refine ⟨by simp [waitCondition, hA], by simp [waitReturn, hA], ?_, flagRun_mono⟩
  cases hp : i.parsedUri with
  | none => simp [connectWebSocketSynchronous, hp]
  | some u => simp [connectWebSocketSynchronous, hp, waitReturn, hA]

/-- Witness for C3: with both flags set, a completed transaction, a
101 response and an engaged upgrade, the attempt still returns null. -/
theorem abort_overrides_completion_witness :
    (connectWebSocketSynchronous connectAbortedInput).1 = none :=
  (abort_overrides_completion connectAbortedInput rfl).2.2.1

/-- C5 counterexample.  The claim says the port-443 rule applies only
when the URI specifies no explicit port and that a URI with a port
keeps it, for every request URI handed to the transport.  But the
resource-request path sets the port to 443 for an https URI that
explicitly specifies port 8443, and the WebSocket-connect path does
not default an https URI with no port at all (it checks only "wss"). -/
theorem port_defaulting_counterexample :
    (resourceRequestSetPort uriExplicitPort).port = some 443
    ∧ uriExplicitPort.port = some 8443
    ∧ (connectDefaultPort uriHttpsNoPort).port = none := by
  refine ⟨?_, rfl, ?_⟩ <;> decide

/-- C5 as amended.  In the WebSocket-connect path the defaulting rule
is as claimed but for the scheme check: a URI with an explicit port
keeps it, and a URI with no port is set to 443 exactly when its scheme
is "wss" (an https URI with no port is left alone).  In the
resource-request path the port is set to 443 unconditionally whenever
the scheme is "https" or "wss", overriding any explicit port; URIs of
other schemes are left alone. -/
theorem port_defaulting_amended :
    (∀ (u : Uri) (p : Nat), u.port = some p → connectDefaultPort u = u)
    ∧ (∀ u : Uri, u.port = none → u.GetScheme = "wss" →
        (connectDefaultPort u).port = some 443)
    ∧ (∀ u : Uri, u.port = none → u.GetScheme ≠ "wss" → connectDefaultPort u = u)
    ∧ (∀ u : Uri, (u.GetScheme = "https" ∨ u.GetScheme = "wss") →
        (resourceRequestSetPort u).port = some 443)
    ∧ (∀ u : Uri, u.GetScheme ≠ "https" → u.GetScheme ≠ "wss" →
        resourceRequestSetPort u = u) := by
  refine ⟨?_, ?_, ?_, ?_, ?_⟩
  · intro u p hp
    simp [connectDefaultPort, Uri.HasPort, hp]
  · intro u hp hs
    simp [connectDefaultPort, Uri.HasPort, Uri.SetPort, hp, hs]
  · intro u hp hs
    simp [connectDefaultPort, Uri.HasPort, Uri.GetScheme, hp]
    intro h
    exact absurd h hs
  · intro u hs
    rcases hs with hs | hs <;> simp [resourceRequestSetPort, Uri.SetPort, hs]
  · intro u h1 h2
    simp [resourceRequestSetPort, Uri.GetScheme]
    intro h
    rcases h with h | h
    · exact absurd h h1
    · exact absurd h h2

/-- Witness for C5 as amended: a URI with an explicit port keeps it in
the connect path; a portless wss URI is defaulted to 443 in both
paths. -/
theorem port_defaulting_amended_witness :
    connectDefaultPort uriExplicitPort = uriExplicitPort
    ∧ (connectDefaultPort uriWssNoPort).port = some 443
    ∧ (resourceRequestSetPort uriWssNoPort).port = some 443 :=
  ⟨port_defaulting_amended.1 uriExplicitPort 8443 rfl,
   port_defaulting_amended.2.1 uriWssNoPort rfl rfl,
   port_defaulting_amended.2.2.2.1 uriWssNoPort (Or.inr rfl)⟩

/-- C6.  For a non-aborted attempt, assuming the transport contract
that the upgrade can only engage on a transaction whose terminal state
is Completed (the upgrade callback runs on receipt of the response,
ConnectWebSocket.cpp lines 148-163), the attempt returns a WebSocket
exactly when the URI parsed, the terminal state is Completed and the
upgrade engaged; every other listed case (Completed but not engaged
with any status, UnableToConnect, Broken, Timeout, an unrecognized
state, an unparseable URI) returns null; and the future handed to the
caller of `QueueWebSocketRequest` is always resolved, never left
pending, whatever the outcome. -/
theorem websocket_returned_iff_completed_and_engaged (i : ConnectInputs)
    (hAbort : i.contextAtWake.abortAttempt = false)
    (hContract : i.wsEngaged = true → i.state = TransactionState.Completed) :
    ((connectWebSocketSynchronous i).1 ≠ none
      ↔ (i.parsedUri ≠ none ∧ i.state = TransactionState.Completed ∧ i.wsEngaged = true))
    ∧ (∀ (c : Bool) (r : Nat) (o : Option Uri), (QueueWebSocketRequest c r o).1 ≠ none) := by
  constructor
  · cases hp : i.parsedUri with
    | none => simp [connectWebSocketSynchronous, hp]
    | some u =>
      cases hE : i.wsEngaged with
      | true =>
        have hC := hContract hE
        simp [connectWebSocketSynchronous, hp, waitReturn, hAbort, hE, hC]
      | false =>
        simp [connectWebSocketSynchronous, hp, waitReturn, hAbort, hE]
  · intro c r o
    simp [QueueWebSocketRequest]

/-- Witness for C6: with no abort, a completed transaction and an
engaged upgrade, the attempt returns a WebSocket. -/
theorem websocket_returned_iff_completed_and_engaged_witness :
    (connectWebSocketSynchronous connectEngagedInput).1 ≠ none :=
  (websocket_returned_iff_completed_and_engaged connectEngagedInput rfl
      (fun _ => rfl)).1.mpr ⟨by decide, rfl, rfl⟩

/-- C7 counterexample.  The claim says queueWebSocketRequest returns a
handle immediately without blocking the calling thread.  But with the
connection future becoming ready only after 3 poll periods and no
cancellation, the calling thread performs 3 blocking 100 ms waits
inside `Connections::QueueWebSocketRequest` before it returns, and the
future inside the handle it finally returns is already resolved. -/
theorem queue_websocket_request_blocks_counterexample :
    (QueueWebSocketRequest false 3 (some uriWssNoPort)).2 = 3
    ∧ (QueueWebSocketRequest false 3 (some uriWssNoPort)).2 ≠ 0
    ∧ (QueueWebSocketRequest false 3 (some uriWssNoPort)).1 ≠ none := by
  refine ⟨?_, ?_, ?_⟩ <;> decide

/-- C7 as amended.  queueResourceRequest returns its handle
immediately: it resolves nothing and leaves the new transaction
pending in the table.  The WebSocket attempt itself runs on a worker
through ConnectWebSocket, whose abort function may be called at any
time, any number of times, also after completion (it only sets the
abort flag, idempotently, and leaves the completed flag alone).  But
queueWebSocketRequest blocks the calling thread, performing one 100 ms
wait per poll period until the attempt is ready or cancelled, and the
future in the handle it returns is already resolved when it returns. -/
theorem api_blocking_behaviour :
    (∀ s : RegistryState, (queueResourceRequest s).1.resolved = s.resolved)
    ∧ (∀ s : RegistryState,
        (queueResourceRequest s).2 ∈ (queueResourceRequest s).1.httpClientTransactions)
    ∧ (∀ (c : Bool) (r : Nat) (o : Option Uri), (QueueWebSocketRequest c r o).1 ≠ none)
    ∧ (∀ (c : Bool) (r : Nat) (o : Option Uri),
        (QueueWebSocketRequest c r o).2 = if c then 0 else r)
    ∧ (∀ s : MakeConnectionSharedContext,
        setAbortAttempt (setAbortAttempt s) = setAbortAttempt s)
    ∧ (∀ s : MakeConnectionSharedContext,
        (setAbortAttempt s).transactionCompleted = s.transactionCompleted) := by
  have hpoll : ∀ (c : Bool) (r : Nat), pollLoopTimeoutWaits c r = if c then 0 else r := by
    intro c r
    induction r with
    | zero => cases c <;> simp [pollLoopTimeoutWaits]
    | succ k ih => cases c <;> simp_all [pollLoopTimeoutWaits]
  refine ⟨?_, ?_, ?_, ?_, ?_, ?_⟩
  · intro s
    simp [queueResourceRequest]
  · intro s
    simp [queueResourceRequest]
  · intro c r o
    simp [QueueWebSocketRequest]
  · intro c r o
    simpa [QueueWebSocketRequest] using hpoll c r
  · intro s
    simp [setAbortAttempt]
  · intro s
    simp [setAbortAttempt]
